import Mathlib

/-!
# HexFF — windowed-read and byte-interpretation core, shallow embedding

Shallow embedding of the HexFF hex-editor core:
* the component state and handlers of the hex edit view
  (source: src/unnamed/part_000, the `HextEditViewComponent`);
* the transport wrappers (source: src/src/utilities/app/TauriWrappers.ts);
* the browser base64 primitives `atob`/`btoa` used by the read path,
  modelled on canonical padded base64 (the payloads produced by the
  backend's encoder, whitespace-free);
* pieces of the repository that the component imports but whose files are
  not part of the studied sources (the debounce hook, the hex formatters,
  the localization function) are modelled from the specification and say
  so in their doc comments.

Strings are modelled as their sequence of characters (`String.data`);
JavaScript string indexing `s[0]` is modelled as `List.head?`.
-/

namespace HexFF

/-! ## Base64 transport encoding (browser `atob`, backend encoder `btoa`) -/

/-- The base64 alphabet: sextet value (0–63) to character.
`A`–`Z` for 0–25, `a`–`z` for 26–51, `0`–`9` for 52–61, `+` for 62, `/` for 63. -/
def charOfSextet (s : Nat) : Char :=
  if s < 26 then Char.ofNat (65 + s)
  else if s < 52 then Char.ofNat (97 + (s - 26))
  else if s < 62 then Char.ofNat (48 + (s - 52))
  else if s = 62 then '+'
  else '/'

/-- Inverse of the base64 alphabet: character to sextet value, `none` for
characters outside the alphabet (`=` included). -/
def sextetOfChar (c : Char) : Option Nat :=
  let n := c.toNat
  if 65 ≤ n ∧ n ≤ 90 then some (n - 65)
  else if 97 ≤ n ∧ n ≤ 122 then some (n - 97 + 26)
  else if 48 ≤ n ∧ n ≤ 57 then some (n - 48 + 52)
  else if c = '+' then some 62
  else if c = '/' then some 63
  else none

/-- The backend's base64 encoder: 3 bytes to 4 characters, with `=` padding
for a final group of 1 or 2 bytes. -/
def btoa : List Nat → List Char
  | [] => []
  | [a] => [charOfSextet (a / 4), charOfSextet (a % 4 * 16), '=', '=']
  | [a, b] => [charOfSextet (a / 4), charOfSextet (a % 4 * 16 + b / 16),
      charOfSextet (b % 16 * 4), '=']
  | a :: b :: c :: rest =>
      charOfSextet (a / 4) :: charOfSextet (a % 4 * 16 + b / 16) ::
      charOfSextet (b % 16 * 4 + c / 64) :: charOfSextet (c % 64) :: btoa rest

/-- The browser's `atob`, on canonical padded base64: decodes 4 characters to
3 bytes, a final `xx==` group to 1 byte, a final `xxx=` group to 2 bytes;
any other shape (stray `=`, character outside the alphabet, length not a
multiple of 4) fails with `none` (the browser throws). -/
def atob : List Char → Option (List Nat)
  | c0 :: c1 :: c2 :: c3 :: rest =>
    match sextetOfChar c0, sextetOfChar c1 with
    | some s0, some s1 =>
      if c2 = '=' then
        if c3 = '=' ∧ rest = [] then some [s0 * 4 + s1 / 16] else none
      else
        match sextetOfChar c2 with
        | some s2 =>
          if c3 = '=' then
            if rest = [] then some [s0 * 4 + s1 / 16, s1 % 16 * 16 + s2 / 4] else none
          else
            match sextetOfChar c3 with
            | some s3 =>
              (atob rest).map
                (fun tl => (s0 * 4 + s1 / 16) :: (s1 % 16 * 16 + s2 / 4) :: (s2 % 4 * 64 + s3) :: tl)
            | none => none
        | none => none
    | _, _ => none
  | [] => some []
  | _ => none

theorem sextetOfChar_charOfSextet : ∀ s, s < 64 → sextetOfChar (charOfSextet s) = some s := by
  decide

theorem charOfSextet_ne_eq : ∀ s, s < 64 → charOfSextet s ≠ '=' := by
  decide

/-- Round trip: decoding an encoded byte list (all values 0–255) recovers it
exactly — same length, same order, same values. -/
theorem atob_btoa : ∀ bs : List Nat, (∀ b ∈ bs, b < 256) → atob (btoa bs) = some bs
  | [], _ => by simp [btoa, atob]
  | [a], h => by
    have ha : a < 256 := h a (by simp)
    have h0 : a / 4 < 64 := by omega
    have h1 : a % 4 * 16 < 64 := by omega
    simp only [btoa, atob, sextetOfChar_charOfSextet _ h0, sextetOfChar_charOfSextet _ h1]
    simp only [and_self, if_true, Option.some.injEq, List.cons.injEq, and_true]
    omega
  | [a, b], h => by
    have ha : a < 256 := h a (by simp)
    have hb : b < 256 := h b (by simp)
    have h0 : a / 4 < 64 := by omega
    have h1 : a % 4 * 16 + b / 16 < 64 := by omega
    have h2 : b % 16 * 4 < 64 := by omega
    simp only [btoa, atob, sextetOfChar_charOfSextet _ h0, sextetOfChar_charOfSextet _ h1,
      charOfSextet_ne_eq _ h2, if_false, sextetOfChar_charOfSextet _ h2]
    simp only [if_true, Option.some.injEq, List.cons.injEq, and_true]
    constructor <;> omega
  | a :: b :: c :: rest, h => by
    have ha : a < 256 := h a (by simp)
    have hb : b < 256 := h b (by simp)
    have hc : c < 256 := h c (by simp)
    have ih := atob_btoa rest (fun x hx => h x (by simp [hx]))
    have h0 : a / 4 < 64 := by omega
    have h1 : a % 4 * 16 + b / 16 < 64 := by omega
    have h2 : b % 16 * 4 + c / 64 < 64 := by omega
    have h3 : c % 64 < 64 := by omega
    simp only [btoa, atob, sextetOfChar_charOfSextet _ h0, sextetOfChar_charOfSextet _ h1,
      charOfSextet_ne_eq _ h2, if_false, sextetOfChar_charOfSextet _ h2,
      charOfSextet_ne_eq _ h3, sextetOfChar_charOfSextet _ h3]
    rw [ih]
    simp only [Option.map_some', Option.some.injEq, List.cons.injEq, and_true]
    refine ⟨by omega, by omega, by omega⟩

/-! ## Transport layer (src/src/utilities/app/TauriWrappers.ts) -/

/-- `FileReadResult` (TauriWrappers.ts lines 73–76). -/
structure FileReadResult where
  file_index : Nat
  file_data : String
deriving DecidableEq

/-- A JavaScript `Error` value, reduced to its message. -/
structure JsError where
  message : String
deriving DecidableEq

/-- `DataInPositionResult` — the decode bundle returned by the backend.
Fields as declared in TauriWrappers.ts lines 35–64, together with the
endianness-split character fields that the hex edit view component reads on
the received value (part_000 lines 48–53). All fields arrive as strings;
the character fields model the decoder's short sequence of decoded units. -/
structure DataInPositionResult where
  value_u8 : String
  value_i8 : String
  value_u16 : String
  value_i16 : String
  value_u32 : String
  value_i32 : String
  value_u64 : String
  value_i64 : String
  value_u128 : String
  value_i128 : String
  value_f32 : String
  value_f64 : String
  value_le_u8 : String
  value_le_i8 : String
  value_le_u16 : String
  value_le_i16 : String
  value_le_u32 : String
  value_le_i32 : String
  value_le_u64 : String
  value_le_i64 : String
  value_le_u128 : String
  value_le_i128 : String
  value_le_f32 : String
  value_le_f64 : String
  char_ascii : String
  char_le_utf8 : String
  char_le_utf16 : String
  char_le_utf32 : String
  char_be_utf8 : String
  char_be_utf16 : String
  char_be_utf32 : String
deriving DecidableEq

/-- `readFile` (TauriWrappers.ts lines 3–9): forwards a fulfilled transport
result unchanged and re-throws a transport rejection as a fresh `Error`
whose message is the string interpolation of the underlying error. -/
def readFile (invokeResult : Except String FileReadResult) : Except JsError FileReadResult :=
  match invokeResult with
  | .ok r => .ok r
  | .error e => .error ⟨e⟩

/-- `getDataInPosition` (TauriWrappers.ts lines 27–33): same wrapping as
`readFile`, for the point-decode query. -/
def getDataInPosition (invokeResult : Except String DataInPositionResult) :
    Except JsError DataInPositionResult :=
  match invokeResult with
  | .ok r => .ok r
  | .error e => .error ⟨e⟩

/-! ## The hex edit view component (src/unnamed/part_000) -/

/-- The bundle the component installs for the inspector: the spread of a
`DataInPositionResult` with the six multi-byte character fields reduced to
a single optional character. -/
structure DecodedBundle where
  value_u8 : String
  value_i8 : String
  value_u16 : String
  value_i16 : String
  value_u32 : String
  value_i32 : String
  value_u64 : String
  value_i64 : String
  value_u128 : String
  value_i128 : String
  value_f32 : String
  value_f64 : String
  value_le_u8 : String
  value_le_i8 : String
  value_le_u16 : String
  value_le_i16 : String
  value_le_u32 : String
  value_le_i32 : String
  value_le_u64 : String
  value_le_i64 : String
  value_le_u128 : String
  value_le_i128 : String
  value_le_f32 : String
  value_le_f64 : String
  char_ascii : String
  char_le_utf8 : Option Char
  char_le_utf16 : Option Char
  char_le_utf32 : Option Char
  char_be_utf8 : Option Char
  char_be_utf16 : Option Char
  char_be_utf32 : Option Char
deriving DecidableEq

/-- The component state: the four `useState` cells, the `readError` ref
(part_000 lines 25–30), plus the observable interaction logs — emitted
notifications, issued read requests, and file writes (no code path ever
appends to the last). -/
structure HexViewState where
  fromPosition : Int
  hexData : List Nat
  positionByteValues : Option DecodedBundle
  bigEndian : Bool
  readError : Bool
  notifications : List (String × String)
  readRequests : List (Nat × Int)
  fileWrites : List (Nat × Int × Nat)
deriving DecidableEq

/-- The initial component state (`useState` defaults, part_000 lines 25–30). -/
def initialState : HexViewState :=
  { fromPosition := 0, hexData := [], positionByteValues := none, bigEndian := false,
    readError := false, notifications := [], readRequests := [], fileWrites := [] }

/-- `onHexValueChange` (part_000 lines 34–41): copy `hexData`, overwrite the
entry at `bytePosition` with `value`, install the copy. Nothing else in the
state is touched. -/
def onHexValueChange (value : Nat) (bytePosition : Nat) (st : HexViewState) : HexViewState :=
  { st with hexData := st.hexData.set bytePosition value }

/-- The `.then` continuation of `onFilePositionChange` (part_000 lines 46–54):
spread the response and replace the six multi-byte character fields by their
first element — JavaScript `s[0]`, i.e. `none` when the string is empty. -/
def reduceDecoded (f : DataInPositionResult) : DecodedBundle :=
  { value_u8 := f.value_u8, value_i8 := f.value_i8
    value_u16 := f.value_u16, value_i16 := f.value_i16
    value_u32 := f.value_u32, value_i32 := f.value_i32
    value_u64 := f.value_u64, value_i64 := f.value_i64
    value_u128 := f.value_u128, value_i128 := f.value_i128
    value_f32 := f.value_f32, value_f64 := f.value_f64
    value_le_u8 := f.value_le_u8, value_le_i8 := f.value_le_i8
    value_le_u16 := f.value_le_u16, value_le_i16 := f.value_le_i16
    value_le_u32 := f.value_le_u32, value_le_i32 := f.value_le_i32
    value_le_u64 := f.value_le_u64, value_le_i64 := f.value_le_i64
    value_le_u128 := f.value_le_u128, value_le_i128 := f.value_le_i128
    value_le_f32 := f.value_le_f32, value_le_f64 := f.value_le_f64
    char_ascii := f.char_ascii
    char_le_utf8 := f.char_le_utf8.data.head?
    char_le_utf16 := f.char_le_utf16.data.head?
    char_le_utf32 := f.char_le_utf32.data.head?
    char_be_utf8 := f.char_be_utf8.data.head?
    char_be_utf16 := f.char_be_utf16.data.head?
    char_be_utf32 := f.char_be_utf32.data.head? }

/-- Settling of the promise issued by `onFilePositionChange` (part_000 lines
43–58): a fulfilled `getDataInPosition` installs the reduced bundle; the
chain has no rejection handler (the `void` operator discards the promise),
so a rejected decode leaves the whole state untouched. -/
def onFilePositionChangeSettle (st : HexViewState)
    (r : Except JsError DataInPositionResult) : HexViewState :=
  match r with
  | .ok f => { st with positionByteValues := some (reduceDecoded f) }
  | .error _ => st

/-- Modelled from the spec: the localization function `translate` (from
src/localization/Localization, not among the studied sources) produces a
human-readable, localizable message embedding its parameters; in particular
the `fileReadFailed` message embeds the `error` parameter. -/
def translate (key : String) (errorParam : String) : String :=
  key ++ ": " ++ errorParam

/-- Modelled platform detail: the exception thrown by the browser's `atob`
on a malformed base64 payload. -/
def atobFailure : JsError := ⟨"InvalidCharacterError"⟩

/-- The call side of `readFromPosition` (part_000 line 122): issues
`readFile(fileIndex, fromPosition)`, recorded in the request log. -/
def readFromPositionIssue (fileIndex : Nat) (st : HexViewState) : HexViewState :=
  { st with readRequests := st.readRequests ++ [(fileIndex, st.fromPosition)] }

/-- Settling of `readFromPosition`'s promise chain (part_000 lines 121–132):
on fulfilment the payload is base64-decoded (`atob`), the characters are
coerced bytewise through a `Uint8Array` (`codePointAt`, stored mod 256),
the resulting array is installed wholesale as the new `hexData`, and the
error flag is cleared. A rejected read — or an `atob` throw inside the
`.then` handler — reaches the `.catch` branch: the error flag is set and
the translated `fileReadFailed` notification embedding the error is
emitted; `hexData` is never touched on that branch. -/
def readFromPositionSettle (st : HexViewState)
    (r : Except JsError FileReadResult) : HexViewState :=
  match r with
  | .ok res =>
    match atob res.file_data.data with
    | some bytes => { st with hexData := bytes.map (fun b => b % 256), readError := false }
    | none =>
      { st with
        readError := true
        notifications :=
          st.notifications ++ [("error", translate "fileReadFailed" atobFailure.message)] }
  | .error e =>
    { st with
      readError := true
      notifications :=
        st.notifications ++ [("error", translate "fileReadFailed" e.message)] }

/-- Modelled from the spec: `formatterLower` (imported from HexEditView, not
among the studied sources) renders a number as zero-padded lower-case
hexadecimal text, two hex digits per byte-equivalent unit. -/
def formatterLower (value : Nat) : String :=
  let ds := Nat.toDigits 16 value
  String.mk (if ds.length % 2 = 1 then '0' :: ds else ds)

/-- Modelled from the spec: `formatterUpper`, the upper-case variant of
`formatterLower`. -/
def formatterUpper (value : Nat) : String :=
  let ds := (Nat.toDigits 16 value).map Char.toUpper
  String.mk (if ds.length % 2 = 1 then '0' :: ds else ds)

/-- The memoized tooltip `formatter` (part_000 lines 137–139): selects the
upper- or lower-case variant by `hexUpperCase` and substitutes `0` for an
absent value (`value ?? 0`). -/
def formatter (hexUpperCase : Bool) (value : Option Nat) : String :=
  if hexUpperCase = true then formatterUpper (value.getD 0) else formatterLower (value.getD 0)

/-- `onChange` (part_000 lines 141–143): the window-offset setter — stores
the slider value as the new `fromPosition`, with no transformation. -/
def onChange (value : Int) (st : HexViewState) : HexViewState :=
  { st with fromPosition := value }

/-- The configuration of the scroll control. -/
structure SliderConfig where
  min : Int
  max : Int
  step : Nat
  vertical : Bool
deriving DecidableEq

/-- The slider element of the view (part_000 lines 158–170): `min` 0, `max`
`fileSize`, `step` the grid's column count (`columns` is imported from
HexEditView, so it stays a parameter here), vertical; its `onChange` is the
window-offset setter above. -/
def hexEditSlider (fileSize : Int) (columns : Nat) : SliderConfig :=
  { min := 0, max := fileSize, step := columns, vertical := true }

/-- The settle interval passed to `useDebounce` (part_000 line 134). -/
def settleInterval : Nat := 100

/-- Modelled from the spec: the debounce hook `useDebounce`
(src/hooks/UseDebounce.ts, not among the studied sources) —
timer-reset-on-change: each change cancels any pending scheduled call and
reschedules one settle interval later, so a change fires exactly when no
further change arrives within the interval after it. `debounceFireCount
interval ts` counts the fired calls for an ascending list of change times. -/
def debounceFireCount (interval : Nat) : List Nat → Nat
  | [] => 0
  | [_] => 1
  | t1 :: t2 :: rest =>
      (if t2 < t1 + interval then 0 else 1) + debounceFireCount interval (t2 :: rest)

/-- Arrival-order semantics of the point-decode flow: each response that
arrives runs the `.then` continuation of its own `onFilePositionChange`
call (part_000 lines 43–58), in arrival order; `resp` maps a requested
offset to the transport's bundle for it. The component keeps no request
token, so every arrival installs its bundle unconditionally. -/
def runDecodeResponses (resp : Int → DataInPositionResult) (st : HexViewState)
    (arrivals : List Int) : HexViewState :=
  arrivals.foldl (fun s off => onFilePositionChangeSettle s (.ok (resp off))) st

/-- An all-empty decode response, base point for concrete scenarios. -/
def emptyDecoded : DataInPositionResult :=
  { value_u8 := "", value_i8 := "", value_u16 := "", value_i16 := ""
    value_u32 := "", value_i32 := "", value_u64 := "", value_i64 := ""
    value_u128 := "", value_i128 := "", value_f32 := "", value_f64 := ""
    value_le_u8 := "", value_le_i8 := "", value_le_u16 := "", value_le_i16 := ""
    value_le_u32 := "", value_le_i32 := "", value_le_u64 := "", value_le_i64 := ""
    value_le_u128 := "", value_le_i128 := "", value_le_f32 := "", value_le_f64 := ""
    char_ascii := "", char_le_utf8 := "", char_le_utf16 := "", char_le_utf32 := ""
    char_be_utf8 := "", char_be_utf16 := "", char_be_utf32 := "" }

/-- A concrete decode oracle whose bundles identify the requested offset. -/
def testDecodeResp (off : Int) : DataInPositionResult :=
  { emptyDecoded with value_u8 := toString off }

/-! ## Claims -/

/-- Mapping the byte coercion over an already-bounded list changes nothing. -/
theorem map_mod256_of_bounded (bs : List Nat) (h : ∀ b ∈ bs, b < 256) :
    bs.map (fun b => b % 256) = bs := by
  induction bs with
  | nil => rfl
  | cons a as ih =>
    have ha : a < 256 := h a (by simp)
    simp only [List.map_cons, List.cons.injEq]
    exact ⟨Nat.mod_eq_of_lt ha, ih (fun b hb => h b (by simp [hb]))⟩

/-- Claim C1, counterexample: issue decodes for offset 10 then offset 20; the
response for 20 arrives first, the response for 10 last. The component keeps
no request token, so the last arrival is installed: the displayed bundle
reflects offset 10, not offset 20 as the claim requires. -/
theorem c1_counterexample :
    (runDecodeResponses testDecodeResp initialState [20, 10]).positionByteValues
        = some (reduceDecoded (testDecodeResp 10))
      ∧ reduceDecoded (testDecodeResp 10) ≠ reduceDecoded (testDecodeResp 20) :=
  ⟨rfl, by decide⟩

/-- Claim C1, amended: the point-decode flow is last-arrived-wins, not
last-issued-wins — after any nonempty sequence of decode responses has been
processed, the installed bundle is the one of the response that arrived
last, whether or not its request was the most recently issued. -/
theorem c1_last_arrival_installed (resp : Int → DataInPositionResult) :
    ∀ (arrivals : List Int) (st : HexViewState) (h : arrivals ≠ []),
      (runDecodeResponses resp st arrivals).positionByteValues
        = some (reduceDecoded (resp (arrivals.getLast h)))
  | [], _, h => absurd rfl h
  | [a], st, _ => by
    simp [runDecodeResponses, onFilePositionChangeSettle]
  | a :: b :: bs, st, _ => by
    have ih := c1_last_arrival_installed resp (b :: bs)
      (onFilePositionChangeSettle st (.ok (resp a))) (by simp)
    simpa [runDecodeResponses, List.getLast_cons_cons] using ih

/-- Witness for the amended claim C1 at a concrete out-of-order scenario. -/
theorem c1_last_arrival_installed_witness :
    (runDecodeResponses testDecodeResp initialState [20, 10]).positionByteValues
      = some (reduceDecoded (testDecodeResp 10)) :=
  c1_last_arrival_installed testDecodeResp [20, 10] initialState (by decide)

/-- Claim C2, counterexample: a failing decode leaves the state bit-for-bit
unchanged — starting from the initial state, whose notification log is
empty, the log is still empty afterwards, so no notification embedding the
error is ever invoked, contrary to the claim. -/
theorem c2_counterexample :
    onFilePositionChangeSettle initialState (.error ⟨"boom"⟩) = initialState
      ∧ initialState.notifications = [] :=
  ⟨rfl, rfl⟩

/-- Claim C2, amended: if a decode request fails, the currently displayed
DecodedBundle is left unchanged and the failure is never fatal beyond the
triggering operation, but no notification is invoked — the promise chain of
`onFilePositionChange` has no rejection handler, so the failure is silently
discarded and the whole component state is untouched. -/
theorem c2_decode_failure_silent (st : HexViewState) (e : JsError) :
    onFilePositionChangeSettle st (.error e) = st :=
  rfl

/-- Claim C3, counterexample: with `fileSize = 256`, passing
`fileSize + 1000` to the window-offset setter stores `1256`, not the
clamped `256`; passing `-5` stores `-5`, not `0`. The setter performs no
clamping at all. -/
theorem c3_counterexample :
    (onChange (256 + 1000) initialState).fromPosition = 1256
      ∧ (1256 : Int) ≠ 256
      ∧ (onChange (-5) initialState).fromPosition = -5
      ∧ (-5 : Int) ≠ 0 :=
  ⟨rfl, by decide, rfl, by decide⟩

/-- Claim C3, amended: the window-offset setter stores its argument
unchanged; the range restriction to `[0, fileSize]` comes from the slider
control's configuration (`min` 0, `max` `fileSize`), so a value within the
slider's bounds — the only values the control emits — is stored as-is and
the resulting offset lies in `[0, fileSize]`. -/
theorem c3_setter_stores_slider_value (fileSize : Int) (columns : Nat) (v : Int)
    (st : HexViewState)
    (hmin : (hexEditSlider fileSize columns).min ≤ v)
    (hmax : v ≤ (hexEditSlider fileSize columns).max) :
    (onChange v st).fromPosition = v
      ∧ 0 ≤ (onChange v st).fromPosition
      ∧ (onChange v st).fromPosition ≤ fileSize := by
  simp only [hexEditSlider] at hmin hmax
  exact ⟨rfl, hmin, hmax⟩

/-- Witness for the amended claim C3 at `fileSize = 256`, `v = 240`. -/
theorem c3_setter_stores_slider_value_witness :
    ((hexEditSlider 256 16).min ≤ 240 ∧ (240 : Int) ≤ (hexEditSlider 256 16).max)
      ∧ ((onChange 240 initialState).fromPosition = 240
        ∧ 0 ≤ (onChange 240 initialState).fromPosition
        ∧ (onChange 240 initialState).fromPosition ≤ 256) :=
  ⟨⟨by decide, by decide⟩,
    c3_setter_stores_slider_value 256 16 240 initialState (by decide) (by decide)⟩

/-- Claim C4 (confirmed): when a window read fails with underlying error
`e`, the wrapper re-throws it as an `Error` carrying `e`'s interpolation,
and the `.catch` branch of `readFromPosition` leaves the edit buffer
exactly as it was, sets the error flag, and emits one non-fatal
notification whose message embeds the wrapped error. -/
theorem c4_read_failure_preserves_buffer (st : HexViewState) (e : String) :
    (readFromPositionSettle st (readFile (.error e))).hexData = st.hexData
      ∧ (readFromPositionSettle st (readFile (.error e))).readError = true
      ∧ (readFromPositionSettle st (readFile (.error e))).notifications
          = st.notifications ++ [("error", translate "fileReadFailed" e)] := by
  simp [readFile, readFromPositionSettle]

/-- Claim C5 (confirmed): a successful decode installs the reduction of the
transport bundle, and for each multi-byte encoding (UTF-8, UTF-16, UTF-32)
in both endiannesses the installed field is exactly the first element of
the sequence the decoder returned for that field; the reduction is a pure
function of the response, hence deterministic. -/
theorem c5_first_element_installed (st : HexViewState) (f : DataInPositionResult) :
    (onFilePositionChangeSettle st (.ok f)).positionByteValues = some (reduceDecoded f)
      ∧ (reduceDecoded f).char_le_utf8 = f.char_le_utf8.data.head?
      ∧ (reduceDecoded f).char_le_utf16 = f.char_le_utf16.data.head?
      ∧ (reduceDecoded f).char_le_utf32 = f.char_le_utf32.data.head?
      ∧ (reduceDecoded f).char_be_utf8 = f.char_be_utf8.data.head?
      ∧ (reduceDecoded f).char_be_utf16 = f.char_be_utf16.data.head?
      ∧ (reduceDecoded f).char_be_utf32 = f.char_be_utf32.data.head? :=
  ⟨rfl, rfl, rfl, rfl, rfl, rfl, rfl⟩

/-- Claim C6 (confirmed): for every byte list transported as its base64
encoding, a successful window read decodes it back to exactly the same
list — same length, same order, every value in 0–255 — and installs it
wholesale as the new edit buffer (the result does not depend on the
previous buffer), clearing the error flag. -/
theorem c6_transport_roundtrip (st : HexViewState) (idx : Nat) (bs : List Nat)
    (h : ∀ b ∈ bs, b < 256) :
    (readFromPositionSettle st (.ok ⟨idx, String.mk (btoa bs)⟩)).hexData = bs
      ∧ (readFromPositionSettle st (.ok ⟨idx, String.mk (btoa bs)⟩)).readError = false := by
  have hr : atob (String.mk (btoa bs)).data = some bs := atob_btoa bs h
  simp [readFromPositionSettle, hr, map_mod256_of_bounded bs h]

/-- Witness for claim C6 on the concrete byte list `[0, 255, 16]`. -/
theorem c6_transport_roundtrip_witness :
    (∀ b ∈ [0, 255, 16], b < 256)
      ∧ ((readFromPositionSettle initialState
            (.ok ⟨0, String.mk (btoa [0, 255, 16])⟩)).hexData = [0, 255, 16]
        ∧ (readFromPositionSettle initialState
            (.ok ⟨0, String.mk (btoa [0, 255, 16])⟩)).readError = false) :=
  ⟨by decide, c6_transport_roundtrip initialState 0 [0, 255, 16] (by decide)⟩

/-- Claim C7 (confirmed against the spec-modelled debounce): any nonempty
ascending burst of window-offset changes whose later changes all fall
within one settle interval of the first produces exactly one fired read
call, once motion stops. -/
theorem c7_debounce_coalesces :
    ∀ (t1 : Nat) (rest : List Nat), List.Chain' (· ≤ ·) (t1 :: rest) →
      (∀ t ∈ rest, t < t1 + settleInterval) →
      debounceFireCount settleInterval (t1 :: rest) = 1
  | _, [], _, _ => rfl
  | t1, t2 :: rs, hchain, hburst => by
    have h12 : t1 ≤ t2 := (List.chain'_cons.mp hchain).1
    have htail : List.Chain' (· ≤ ·) (t2 :: rs) := (List.chain'_cons.mp hchain).2
    have h2 : t2 < t1 + settleInterval := hburst t2 (by simp)
    have ih := c7_debounce_coalesces t2 rs htail
      (fun t ht => by have := hburst t (by simp [ht]); omega)
    simp only [debounceFireCount, if_pos h2, Nat.zero_add]
    exact ih

/-- Witness for claim C7 on the burst `[0, 30, 60, 99]`. -/
theorem c7_debounce_coalesces_witness :
    (List.Chain' (fun a b => a ≤ b) [0, 30, 60, 99]
        ∧ (∀ t ∈ [30, 60, 99], t < 0 + settleInterval))
      ∧ debounceFireCount settleInterval [0, 30, 60, 99] = 1 :=
  ⟨⟨by norm_num [List.chain'_cons, List.chain'_singleton], by decide⟩,
    c7_debounce_coalesces 0 [30, 60, 99]
      (by norm_num [List.chain'_cons, List.chain'_singleton]) (by decide)⟩

/-- Claim C8 (confirmed): for an in-range index, `onHexValueChange`
replaces exactly the entry at that index, leaves every other entry and the
buffer length unchanged, issues no read request, appends no file write,
and touches no other component state. -/
theorem c8_setByte_isolated (st : HexViewState) (v i : Nat)
    (h : i < st.hexData.length) :
    (onHexValueChange v i st).hexData.length = st.hexData.length
      ∧ (onHexValueChange v i st).hexData.get? i = some v
      ∧ (∀ j, j ≠ i → (onHexValueChange v i st).hexData.get? j = st.hexData.get? j)
      ∧ (onHexValueChange v i st).readRequests = st.readRequests
      ∧ (onHexValueChange v i st).fileWrites = st.fileWrites
      ∧ (onHexValueChange v i st).fromPosition = st.fromPosition
      ∧ (onHexValueChange v i st).positionByteValues = st.positionByteValues
      ∧ (onHexValueChange v i st).notifications = st.notifications
      ∧ (onHexValueChange v i st).readError = st.readError := by
  refine ⟨?_, ?_, ?_, rfl, rfl, rfl, rfl, rfl, rfl⟩
  · simp [onHexValueChange]
  · simp [onHexValueChange, List.getElem?_set_eq_of_lt _ h]
  · intro j hj
    simp [onHexValueChange, List.getElem?_set_ne (Ne.symm hj)]

/-- Witness for claim C8 at index 1 of a three-byte buffer. -/
theorem c8_setByte_isolated_witness :
    1 < (HexViewState.mk 0 [7, 8, 9] none false false [] [] []).hexData.length
      ∧ ((onHexValueChange 255 1 (HexViewState.mk 0 [7, 8, 9] none false false [] [] [])).hexData.length
          = (HexViewState.mk 0 [7, 8, 9] none false false [] [] []).hexData.length
        ∧ (onHexValueChange 255 1 (HexViewState.mk 0 [7, 8, 9] none false false [] [] [])).hexData.get? 1
          = some 255
        ∧ (∀ j, j ≠ 1 →
            (onHexValueChange 255 1 (HexViewState.mk 0 [7, 8, 9] none false false [] [] [])).hexData.get? j
              = (HexViewState.mk 0 [7, 8, 9] none false false [] [] []).hexData.get? j)
        ∧ (onHexValueChange 255 1 (HexViewState.mk 0 [7, 8, 9] none false false [] [] [])).readRequests
          = (HexViewState.mk 0 [7, 8, 9] none false false [] [] []).readRequests
        ∧ (onHexValueChange 255 1 (HexViewState.mk 0 [7, 8, 9] none false false [] [] [])).fileWrites
          = (HexViewState.mk 0 [7, 8, 9] none false false [] [] []).fileWrites
        ∧ (onHexValueChange 255 1 (HexViewState.mk 0 [7, 8, 9] none false false [] [] [])).fromPosition
          = (HexViewState.mk 0 [7, 8, 9] none false false [] [] []).fromPosition
        ∧ (onHexValueChange 255 1 (HexViewState.mk 0 [7, 8, 9] none false false [] [] [])).positionByteValues
          = (HexViewState.mk 0 [7, 8, 9] none false false [] [] []).positionByteValues
        ∧ (onHexValueChange 255 1 (HexViewState.mk 0 [7, 8, 9] none false false [] [] [])).notifications
          = (HexViewState.mk 0 [7, 8, 9] none false false [] [] []).notifications
        ∧ (onHexValueChange 255 1 (HexViewState.mk 0 [7, 8, 9] none false false [] [] [])).readError
          = (HexViewState.mk 0 [7, 8, 9] none false false [] [] []).readError) :=
  ⟨by decide,
    c8_setByte_isolated (HexViewState.mk 0 [7, 8, 9] none false false [] [] []) 255 1 (by decide)⟩

/-- Claim C9 (confirmed, with the formatters modelled from the spec): for
both values of the case flag, formatting an absent value yields exactly the
formatting of zero, and in particular the absent value renders as "00". -/
theorem c9_absent_formats_as_zero :
    (∀ hexUpperCase : Bool, formatter hexUpperCase none = formatter hexUpperCase (some 0))
      ∧ formatter false none = "00"
      ∧ formatter true none = "00"
      ∧ formatter true (some 10) = "0A" :=
  ⟨fun _ => rfl, rfl, rfl, rfl⟩

/-- Claim C10 (confirmed): whenever a window read succeeds (the transport
payload base64-decodes), every entry of the installed edit buffer is an
integer in `[0, 255]` — each decoded character is coerced through a
`Uint8Array` before installation. -/
theorem c10_buffer_bytes_bounded (st : HexViewState) (idx : Nat) (s : String)
    (bytes : List Nat) (h : atob s.data = some bytes) :
    ∀ x ∈ (readFromPositionSettle st (.ok ⟨idx, s⟩)).hexData, x < 256 := by
  intro x hx
  simp only [readFromPositionSettle, h] at hx
  obtain ⟨b, _, hb⟩ := List.mem_map.mp hx
  omega

/-- Witness for claim C10 on the payload "AAEC" (the bytes 0, 1, 2). -/
theorem c10_buffer_bytes_bounded_witness :
    atob ("AAEC" : String).data = some [0, 1, 2]
      ∧ (∀ x ∈ (readFromPositionSettle initialState (.ok ⟨0, "AAEC"⟩)).hexData, x < 256) :=
  ⟨by decide, c10_buffer_bytes_bounded initialState 0 "AAEC" [0, 1, 2] (by decide)⟩

end HexFF
